import Mathlib

/-!
Verification of the EKS cost-optimization agent.

Shallow embedding of the four Python modules of the repository
(`cost_analyzer.py`, `recommendations.py`, `bedrock_client.py`, `main.py`).

Modelling conventions:
* Python floats are modelled as exact rationals (`ℚ`); decimal literals such
  as `0.0416` denote the exact decimal value.
* Python dicts holding JSON-like untrusted data are modelled as association
  lists (`JDict`) with first-match lookup; `dict[k] = v` updates the value in
  place when the key exists and appends otherwise, matching the insertion
  order semantics of Python dicts.
* `datetime.utcnow().hour` is modelled as an explicit `current_hour : ℕ`
  parameter of the functions that read the clock.
* External collaborators (the Bedrock model invocation, `json.loads`, the
  per-recommendation side-effecting executors) are modelled as explicit
  parameters; all code of the repository itself is translated directly.
* A Python statement that raises `TypeError`/`AttributeError` inside a
  `try/except` block is modelled by returning exactly the value the
  enclosing handler produces in the source.
-/

/-- JSON-like values produced by parsing untrusted AI responses.
`jbool` is kept separate because Python `bool` is a subclass of `int`,
so `isinstance(x, (int, float))` accepts booleans. -/
inductive JVal where
  | null
  | jbool (b : Bool)
  | num (q : ℚ)
  | str (s : String)
  | arr (elems : List JVal)
  | obj (fields : List (String × JVal))

/-- A Python dict with string keys and JSON-like values. -/
abbrev JDict := List (String × JVal)

/-- `d.get(k)` / `k in d`: first binding of `k`, if any. -/
def dictGet? (d : JDict) (k : String) : Option JVal :=
  (d.find? (fun p => p.1 == k)).map (fun p => p.2)

/-- `d.get(k, default)`. -/
def dictGetD (d : JDict) (k : String) (v : JVal) : JVal :=
  (dictGet? d k).getD v

/-- `d[k] = v`: update in place when present, append when absent
(keys of a Python dict are unique, so updating the first binding is
updating the binding). -/
def dictSet : JDict → String → JVal → JDict
  | [], k, v => [(k, v)]
  | p :: ps, k, v => if p.1 == k then (k, v) :: ps else p :: dictSet ps k v

/-- `isinstance(x, (int, float))` in Python: numbers and booleans. -/
def numericJ : JVal → Bool
  | JVal.num _ => true
  | JVal.jbool _ => true
  | _ => false

/-- Numeric value of a `JVal` as used in Python comparisons and arithmetic
(`True == 1`, `False == 0`); junk value 0 for non-numeric nodes, which are
only ever reached under a `numericJ` guard. -/
def numValue : JVal → ℚ
  | JVal.num q => q
  | JVal.jbool b => if b then 1 else 0
  | _ => 0

/-- Python truthiness of a JSON-like value. -/
def truthy : JVal → Bool
  | JVal.null => false
  | JVal.jbool b => b
  | JVal.num q => q != 0
  | JVal.str s => s != ""
  | JVal.arr xs => !xs.isEmpty
  | JVal.obj fs => !fs.isEmpty

/-- `needle in hay` on Python strings (substring containment). -/
def strContainsSub (hay needle : String) : Bool :=
  hay.toList.tails.any (fun t => needle.toList.isPrefixOf t)

/-- Python `s.startswith(p)` (char-list form of `String.startsWith`). -/
def pyStartsWith (s p : String) : Bool :=
  p.toList.isPrefixOf s.toList

/-- Index of the first occurrence of a character, `str.find`-style. -/
def firstIdxOf (cs : List Char) (c : Char) : Option ℕ :=
  cs.findIdx? (fun x => x == c)

/-- Index of the last occurrence of a character, `str.rfind`-style. -/
def lastIdxOf (cs : List Char) (c : Char) : Option ℕ :=
  match cs.reverse.findIdx? (fun x => x == c) with
  | some i => some (cs.length - 1 - i)
  | none => none

def openBraceChar : Char := Char.ofNat 123

def closeBraceChar : Char := Char.ofNat 125

namespace BedrockClient

/-- The six required top-level fields of an AI analysis
(`bedrock_client.py`, `_validate_analysis`). -/
def required_fields : List String :=
  ["usage_analysis", "optimization_opportunities", "risk_assessment",
   "confidence_score", "estimated_savings", "implementation_priority"]

/-- Default filled in for a missing required field. -/
def requiredDefault (f : String) : JVal :=
  if f = "confidence_score" then JVal.num 0.7
  else if f = "estimated_savings" then JVal.num 0.0
  else if f = "implementation_priority" then JVal.arr []
  else JVal.obj []

/-- One step of the required-field loop of `_validate_analysis`. -/
def ensureField (d : JDict) (f : String) : JDict :=
  if (dictGet? d f).isSome then d else dictSet d f (requiredDefault f)

/-- `BedrockClient._validate_analysis`: fill missing required fields, then
replace an invalid `confidence_score` (non-numeric or outside [0,1]) with
0.7 and an invalid `estimated_savings` (non-numeric or negative) with 0.0. -/
def _validate_analysis (analysis : JDict) : JDict :=
  let a1 := required_fields.foldl ensureField analysis
  let confidence := dictGetD a1 "confidence_score" (JVal.num 0.7)
  let a2 :=
    if numericJ confidence = false ∨ numValue confidence < 0 ∨ numValue confidence > 1 then
      dictSet a1 "confidence_score" (JVal.num 0.7)
    else a1
  let savings := dictGetD a2 "estimated_savings" (JVal.num 0.0)
  if numericJ savings = false ∨ numValue savings < 0 then
    dictSet a2 "estimated_savings" (JVal.num 0.0)
  else a2

/-- The fixed skeleton shared by `_parse_text_response` (with the raw text
as `reasoning`). -/
def textResponseBase (text : String) : JDict :=
  [("usage_analysis", JVal.obj
      [("underutilized_resources", JVal.arr []),
       ("overutilized_resources", JVal.arr []),
       ("usage_patterns", JVal.obj [])]),
   ("optimization_opportunities", JVal.obj
      [("instance_right_sizing", JVal.arr []),
       ("pod_scaling", JVal.arr []),
       ("spot_migration", JVal.arr []),
       ("workload_scheduling", JVal.arr [])]),
   ("risk_assessment", JVal.obj
      [("high_risk_actions", JVal.arr []),
       ("medium_risk_actions", JVal.arr []),
       ("low_risk_actions", JVal.arr [])]),
   ("confidence_score", JVal.num 0.7),
   ("estimated_savings", JVal.num 0.0),
   ("implementation_priority", JVal.arr []),
   ("reasoning", JVal.str text)]

/-- `BedrockClient._parse_text_response`: heuristic fallback used when no
JSON object can be extracted from the model's text. -/
def _parse_text_response (text : String) : JDict :=
  let analysis := textResponseBase text
  let analysis :=
    if strContainsSub text.toLower "underutilized" then
      dictSet analysis "confidence_score" (JVal.num 0.8)
    else analysis
  if strContainsSub text.toLower "savings" then
    dictSet analysis "estimated_savings" (JVal.num 100.0)
  else analysis

/-- `BedrockClient._get_fallback_analysis`: the static analysis returned when
the AI analysis fails entirely. -/
def _get_fallback_analysis : JDict :=
  [("usage_analysis", JVal.obj
      [("underutilized_resources", JVal.arr []),
       ("overutilized_resources", JVal.arr []),
       ("usage_patterns", JVal.obj [])]),
   ("optimization_opportunities", JVal.obj
      [("instance_right_sizing", JVal.arr []),
       ("pod_scaling", JVal.arr []),
       ("spot_migration", JVal.arr []),
       ("workload_scheduling", JVal.arr [])]),
   ("risk_assessment", JVal.obj
      [("high_risk_actions", JVal.arr []),
       ("medium_risk_actions", JVal.arr []),
       ("low_risk_actions", JVal.arr [])]),
   ("confidence_score", JVal.num 0.5),
   ("estimated_savings", JVal.num 0.0),
   ("implementation_priority", JVal.arr []),
   ("reasoning", JVal.str "Fallback analysis due to AI service unavailability")]

/-- `BedrockClient._parse_ai_response`. `jsonLoads` models the external
`json.loads` call on the extracted brace-delimited substring: `none` models
`json.JSONDecodeError` (the substring starts with a brace, so a successful
parse is an object). Cases where the Python code would raise
(`content` not a list of dicts, `text` not a string) are caught by the
enclosing `except` and produce the fallback analysis, exactly as in the
source. -/
def _parse_ai_response (response : JDict) (jsonLoads : String → Option JDict) : JDict :=
  match dictGetD response "content" (JVal.arr []) with
  | JVal.arr (first :: _) =>
    match first with
    | JVal.obj fd =>
      match dictGetD fd "text" (JVal.str "") with
      | JVal.str ai_text =>
        let cs := ai_text.toList
        match firstIdxOf cs openBraceChar, lastIdxOf cs closeBraceChar with
        | some start_idx, some last_idx =>
          -- end_idx = last_idx + 1; the branch requires end_idx > start_idx
          if start_idx < last_idx + 1 then
            match jsonLoads (String.mk ((cs.drop start_idx).take (last_idx + 1 - start_idx))) with
            | some analysis => _validate_analysis analysis
            | none => _parse_text_response ai_text
          else _parse_text_response ai_text
        | _, _ => _parse_text_response ai_text
      | _ => _get_fallback_analysis
    | _ => _get_fallback_analysis
  | _ => _get_fallback_analysis

/-- Outcome of `BedrockClient._invoke_bedrock_model`: the external Bedrock
call either raises (network/service error, which `_invoke_bedrock_model`
re-raises) or returns a parsed response body. -/
inductive BedrockInvocation where
  | raises
  | returns (response_body : JDict)

/-- `BedrockClient.analyze_cost_optimization`. Prompt construction is pure
string formatting and cannot fail; the only exception source is the model
invocation, caught by the enclosing handler which returns the fallback. -/
def analyze_cost_optimization (invocation : BedrockInvocation)
    (jsonLoads : String → Option JDict) : JDict :=
  match invocation with
  | BedrockInvocation.raises => _get_fallback_analysis
  | BedrockInvocation.returns response_body => _parse_ai_response response_body jsonLoads

end BedrockClient

/-- One entry of `metrics['node_metrics']` as built by
`CostAnalyzer.get_node_metrics` (CloudWatch utilization values are on the
0–100 percent scale). -/
structure NodeMetric where
  instance_id : String
  instance_type : String
  availability_zone : String
  state : String
  cpu_utilization : ℚ
  memory_utilization : ℚ
  hourly_cost : ℚ
  spot_instance : Bool

/-- One entry of `metrics['pod_metrics']['deployments']`.  The numeric
fields the recommendation engine compares are modelled as rationals
(`memory_request` is only ever carried along as text). -/
structure DeploymentMetric where
  replicas : ℤ
  available_replicas : ℤ
  cpu_request : ℚ
  memory_request : String
  cpu_usage : ℚ
  memory_usage : ℚ

/-- The per-cycle snapshot assembled by `CostOptimizationAgent.collect_metrics`,
restricted to the parts the analyzed code reads: `node_metrics` (keyed
`instance_<id>`), `pod_metrics['deployments']`, and
`cost_metrics['daily_average_cost']` (absent when cost collection failed,
read with default 0). -/
structure MetricsSnapshot where
  node_metrics : List (String × NodeMetric)
  deployments : List (String × DeploymentMetric)
  daily_average_cost : Option ℚ

/-- A recommendation dict produced by `RecommendationEngine`.  Common fields
are always set by every generator; the action-specific parameter bag is
modelled with `Option` fields that are `none` when the generator does not
set the key. -/
structure Recommendation where
  action_type : String
  action : String
  deployment_name : Option String := none
  namespace_field : Option String := none
  target_replicas : Option ℤ := none
  instance_id : Option String := none
  current_instance_type : Option String := none
  target_instance_type : Option String := none
  instance_type : Option String := none
  reason : String
  estimated_savings : ℚ
  priority : String
  confidence_score : ℚ
  risk_level : String
  ai_reasoning : Option JVal := none

/-- Round to the nearest integer, ties to even (Python's rounding for
string formatting). -/
def roundHalfEven (q : ℚ) : ℤ :=
  let fl := ⌊q⌋
  let frac := q - fl
  if frac < 1/2 then fl
  else if frac > 1/2 then fl + 1
  else if fl % 2 = 0 then fl else fl + 1

/-- Python `f'{q:.1%}'`: the value as a percentage with one decimal digit,
modelled on exact rationals. -/
def formatPercent1 (q : ℚ) : String :=
  let n := roundHalfEven (q * 1000)
  let sign := if n < 0 then "-" else ""
  let m := n.natAbs
  sign ++ toString (m / 10) ++ "." ++ toString (m % 10) ++ "%"

namespace RecommendationEngine

/-- `self.priority_weights.get(p, 0.4)` (dict literal in `__init__`,
default applied at the sort call site). -/
def priority_weights (p : String) : ℚ :=
  if p = "high" then 1.0
  else if p = "medium" then 0.7
  else if p = "low" then 0.4
  else 0.4

/-- The static pricing dict shared by `_calculate_instance_savings` and
`_get_instance_cost`, including the `.get(type, 0.1)` default. -/
def pricing (instance_type : String) : ℚ :=
  if instance_type = "t3.medium" then 0.0416
  else if instance_type = "t3.large" then 0.0832
  else if instance_type = "t3.xlarge" then 0.1664
  else 0.1

/-- `RecommendationEngine._calculate_pod_scaling_savings`. -/
def _calculate_pod_scaling_savings (current_replicas target_replicas : ℤ) : ℚ :=
  let cpu_per_replica : ℚ := 0.5
  let memory_per_replica : ℚ := 0.5
  let cpu_cost_per_core_hour : ℚ := 0.05
  let memory_cost_per_gb_hour : ℚ := 0.01
  let replicas_diff : ℚ := ((current_replicas - target_replicas : ℤ) : ℚ)
  let hourly_savings := replicas_diff *
    (cpu_per_replica * cpu_cost_per_core_hour + memory_per_replica * memory_cost_per_gb_hour)
  hourly_savings * 24 * 30

/-- `RecommendationEngine._calculate_instance_savings`. -/
def _calculate_instance_savings (current_type target_type : String) : ℚ :=
  let current_cost := pricing current_type
  let target_cost := pricing target_type
  let hourly_savings := current_cost - target_cost
  hourly_savings * 24 * 30

/-- `RecommendationEngine._calculate_instance_cost_increase`. -/
def _calculate_instance_cost_increase (current_type target_type : String) : ℚ :=
  -(_calculate_instance_savings current_type target_type)

/-- `RecommendationEngine._get_instance_cost`. -/
def _get_instance_cost (instance_type : String) : ℚ :=
  pricing instance_type

/-- `RecommendationEngine._calculate_spot_savings`. -/
def _calculate_spot_savings (instance_type : String) : ℚ :=
  let on_demand_cost := _get_instance_cost instance_type
  let spot_cost := on_demand_cost * 0.4
  let hourly_savings := on_demand_cost - spot_cost
  hourly_savings * 24 * 30

/-- `RecommendationEngine._get_smaller_instance_type`. -/
def _get_smaller_instance_type (current_type : String) : Option String :=
  if current_type = "t3.xlarge" then some "t3.large"
  else if current_type = "t3.large" then some "t3.medium"
  else none

/-- `RecommendationEngine._get_larger_instance_type`. -/
def _get_larger_instance_type (current_type : String) : Option String :=
  if current_type = "t3.medium" then some "t3.large"
  else if current_type = "t3.large" then some "t3.xlarge"
  else none

/-- `RecommendationEngine._generate_pod_scaling_recommendations`. -/
def _generate_pod_scaling_recommendations (metrics : MetricsSnapshot) : List Recommendation :=
  metrics.deployments.flatMap fun nd =>
    let deployment_name := nd.1
    let replicas := nd.2.replicas
    let cpu_usage := nd.2.cpu_usage
    let memory_usage := nd.2.memory_usage
    if replicas > 1 ∧ cpu_usage < 0.2 ∧ memory_usage < 0.3 then
      let target_replicas := max 1 (replicas - 1)
      [{ action_type := "scale_pods",
         action := "Scale down " ++ deployment_name ++ " from " ++ toString replicas ++
                   " to " ++ toString target_replicas ++ " replicas",
         deployment_name := some deployment_name,
         namespace_field := some "default",
         target_replicas := some target_replicas,
         reason := "Low CPU and memory utilization",
         estimated_savings := _calculate_pod_scaling_savings replicas target_replicas,
         priority := "medium",
         confidence_score := 0.8,
         risk_level := "low" }]
    else if cpu_usage > 0.8 ∨ memory_usage > 0.85 then
      let target_replicas := replicas + 1
      [{ action_type := "scale_pods",
         action := "Scale up " ++ deployment_name ++ " from " ++ toString replicas ++
                   " to " ++ toString target_replicas ++ " replicas",
         deployment_name := some deployment_name,
         namespace_field := some "default",
         target_replicas := some target_replicas,
         reason := "High CPU or memory utilization",
         estimated_savings := 0,
         priority := "high",
         confidence_score := 0.9,
         risk_level := "low" }]
    else []

/-- `RecommendationEngine._generate_instance_recommendations`. -/
def _generate_instance_recommendations (metrics : MetricsSnapshot) : List Recommendation :=
  metrics.node_metrics.flatMap fun nd =>
    let entry_key := nd.1
    let instance_data := nd.2
    if pyStartsWith entry_key "instance_" = false then []
    else
      let itype := instance_data.instance_type
      let cpu_util := instance_data.cpu_utilization
      let memory_util := instance_data.memory_utilization
      if cpu_util < 0.3 ∧ memory_util < 0.4 then
        match _get_smaller_instance_type itype with
        | some recommended_type =>
          if recommended_type ≠ itype then
            [{ action_type := "right_size_instance",
               action := "Right-size " ++ entry_key ++ " from " ++ itype ++
                         " to " ++ recommended_type,
               instance_id := some instance_data.instance_id,
               current_instance_type := some itype,
               target_instance_type := some recommended_type,
               reason := "Low utilization (CPU: " ++ formatPercent1 cpu_util ++
                         ", Memory: " ++ formatPercent1 memory_util ++ ")",
               estimated_savings := _calculate_instance_savings itype recommended_type,
               priority := "medium",
               confidence_score := 0.85,
               risk_level := "medium" }]
          else []
        | none => []
      else if cpu_util > 0.8 ∨ memory_util > 0.85 then
        match _get_larger_instance_type itype with
        | some recommended_type =>
          if recommended_type ≠ itype then
            [{ action_type := "right_size_instance",
               action := "Upgrade " ++ entry_key ++ " from " ++ itype ++
                         " to " ++ recommended_type,
               instance_id := some instance_data.instance_id,
               current_instance_type := some itype,
               target_instance_type := some recommended_type,
               reason := "High utilization (CPU: " ++ formatPercent1 cpu_util ++
                         ", Memory: " ++ formatPercent1 memory_util ++ ")",
               estimated_savings := -(_calculate_instance_cost_increase itype recommended_type),
               priority := "high",
               confidence_score := 0.9,
               risk_level := "low" }]
          else []
        | none => []
      else []

/-- `RecommendationEngine._generate_spot_recommendations`. -/
def _generate_spot_recommendations (metrics : MetricsSnapshot) : List Recommendation :=
  metrics.node_metrics.flatMap fun nd =>
    let entry_key := nd.1
    let instance_data := nd.2
    if pyStartsWith entry_key "instance_" = false then []
    else
      let itype := instance_data.instance_type
      let cpu_util := instance_data.cpu_utilization
      let memory_util := instance_data.memory_utilization
      let is_spot := instance_data.spot_instance
      if is_spot = false ∧ cpu_util < 0.6 ∧ memory_util < 0.7 then
        [{ action_type := "migrate_to_spot",
           action := "Migrate " ++ entry_key ++ " to spot instance",
           instance_id := some instance_data.instance_id,
           instance_type := some itype,
           reason := "Moderate utilization suitable for spot (CPU: " ++
                     formatPercent1 cpu_util ++ ", Memory: " ++
                     formatPercent1 memory_util ++ ")",
           estimated_savings := _calculate_spot_savings itype,
           priority := "medium",
           confidence_score := 0.75,
           risk_level := "medium" }]
      else []

/-- `RecommendationEngine._generate_scheduling_recommendations`;
`current_hour` models `datetime.utcnow().hour`. -/
def _generate_scheduling_recommendations (metrics : MetricsSnapshot)
    (current_hour : ℕ) : List Recommendation :=
  let daily_average_cost := metrics.daily_average_cost.getD 0
  if 2 ≤ current_hour ∧ current_hour ≤ 6 then
    [{ action_type := "schedule_workload",
       action := "Schedule batch jobs during off-peak hours",
       reason := "Current time is in off-peak window (2-6 AM UTC)",
       estimated_savings := daily_average_cost * 0.1,
       priority := "low",
       confidence_score := 0.6,
       risk_level := "low" }]
  else []

/-- `RecommendationEngine._apply_ai_insights`.  The source mutates the list
in place inside `try/except`; a `TypeError` raised by comparing or
multiplying a non-numeric insight value aborts the loop on its first
iteration (the insight values do not depend on the list element), leaving
the list as mutated so far.  The unused `confidence_score` argument is kept
to mirror the source's signature. -/
def _apply_ai_insights (recommendations : List Recommendation)
    (ai_insights : JVal) (confidence_score : JVal) : List Recommendation :=
  match ai_insights with
  | JVal.obj ins =>
    let rec_conf := dictGetD ins "recommendation_confidence" (JVal.num 0)
    if numericJ rec_conf = false then
      -- `ai_insights.get('recommendation_confidence', 0) > 0.8` raises
      recommendations
    else
      let ai_savings_multiplier := dictGetD ins "savings_multiplier" (JVal.num 1.0)
      if numericJ ai_savings_multiplier = false then
        -- `recommendation['estimated_savings'] *= multiplier` raises, after
        -- the confidence of the first element was (possibly) boosted
        match recommendations with
        | [] => []
        | r :: rest =>
          (if numValue rec_conf > 0.8 then
             { r with confidence_score := min 1.0 (r.confidence_score * 1.1) }
           else r) :: rest
      else
        recommendations.map fun r =>
          let r1 :=
            if numValue rec_conf > 0.8 then
              { r with confidence_score := min 1.0 (r.confidence_score * 1.1) }
            else r
          let r2 := { r1 with estimated_savings :=
                        r1.estimated_savings * numValue ai_savings_multiplier }
          match dictGet? ins "reasoning" with
          | some v => if truthy v then { r2 with ai_reasoning := some v } else r2
          | none => r2
  | _ =>
    -- non-dict insights: `.get` raises on the first iteration (and an empty
    -- list raises nothing); either way the list is unchanged
    recommendations

/-- Sort key of the final ordering: `(priority_weight, estimated_savings)`. -/
def sortKey (r : Recommendation) : ℚ × ℚ :=
  (priority_weights r.priority, r.estimated_savings)

/-- `a` sorts at or before `b` in the descending order (Python tuple
comparison, `reverse=True`). -/
def keyGE (a b : ℚ × ℚ) : Bool :=
  decide (b.1 < a.1 ∨ (a.1 = b.1 ∧ b.2 ≤ a.2))

/-- Stable insertion of an element arriving after everything in `l`. -/
def insertDesc (r : Recommendation) : List Recommendation → List Recommendation
  | [] => [r]
  | y :: ys => if keyGE (sortKey y) (sortKey r) then y :: insertDesc r ys
               else r :: y :: ys

/-- `list.sort(key=..., reverse=True)`: Python's stable sort, modelled as a
stable insertion sort (descending, generation order preserved on ties). -/
def sortRecommendations (l : List Recommendation) : List Recommendation :=
  l.foldl (fun acc r => insertDesc r acc) []

/-- `RecommendationEngine.generate_recommendations`.  `current_hour` models
the clock read inside `_generate_scheduling_recommendations`.  The body's
`try/except` is unreachable: every sub-generator handles its own errors and
the remaining operations are total. -/
def generate_recommendations (metrics : MetricsSnapshot) (ai_analysis : JDict)
    (current_hour : ℕ) : List Recommendation :=
  let ai_insights := dictGetD ai_analysis "ai_analysis" (JVal.obj [])
  let confidence_score := dictGetD ai_analysis "confidence_score" (JVal.num 0.0)
  let recommendations := _generate_pod_scaling_recommendations metrics
  let recommendations := recommendations ++ _generate_instance_recommendations metrics
  let recommendations := recommendations ++ _generate_spot_recommendations metrics
  let recommendations := recommendations ++ _generate_scheduling_recommendations metrics current_hour
  let recommendations := _apply_ai_insights recommendations ai_insights confidence_score
  sortRecommendations recommendations

end RecommendationEngine

namespace CostAnalyzer

/-- `self.instance_pricing.get(t, 0.1)` (dict literal in
`CostAnalyzer.__init__`). -/
def instance_pricing (instance_type : String) : ℚ :=
  if instance_type = "t3.medium" then 0.0416
  else if instance_type = "t3.large" then 0.0832
  else if instance_type = "t3.xlarge" then 0.1664
  else if instance_type = "m5.large" then 0.096
  else if instance_type = "m5.xlarge" then 0.192
  else if instance_type = "c5.large" then 0.085
  else if instance_type = "c5.xlarge" then 0.17
  else 0.1

/-- `CostAnalyzer._calculate_right_sizing_savings`. -/
def _calculate_right_sizing_savings (current_type : String) (cpu_utilization : ℚ) : ℚ :=
  let current_cost := instance_pricing current_type
  if cpu_utilization < 30 then
    if pyStartsWith current_type "t3." then
      if current_type = "t3.xlarge" then current_cost - instance_pricing "t3.large"
      else if current_type = "t3.large" then current_cost - instance_pricing "t3.medium"
      else 0.0
    else 0.0
  else 0.0

/-- `CostAnalyzer._calculate_spot_savings` (hourly, unlike the engine's). -/
def _calculate_spot_savings (instance_type : String) : ℚ :=
  let on_demand_cost := instance_pricing instance_type
  let spot_cost := on_demand_cost * 0.4
  on_demand_cost - spot_cost

/-- `CostAnalyzer._get_recommended_instance_type`. -/
def _get_recommended_instance_type (current_type : String) (cpu_util memory_util : ℚ) : String :=
  if pyStartsWith current_type "t3." then
    if cpu_util > 80 ∨ memory_util > 85 then
      if current_type = "t3.medium" then "t3.large"
      else if current_type = "t3.large" then "t3.xlarge"
      else current_type
    else current_type
  else current_type

/-- `CostAnalyzer._get_optimal_instance_type`. -/
def _get_optimal_instance_type (cpu_util memory_util : ℚ) : String :=
  if cpu_util < 30 ∧ memory_util < 40 then "t3.medium"
  else if cpu_util < 60 ∧ memory_util < 70 then "t3.large"
  else "t3.xlarge"

/-- Entry of the `underutilized_instances` list. -/
structure UnderutilizedEntry where
  instance_id : String
  instance_type : String
  cpu_utilization : ℚ
  memory_utilization : ℚ
  estimated_savings : ℚ

/-- Entry of the `overutilized_instances` list. -/
structure OverutilizedEntry where
  instance_id : String
  instance_type : String
  cpu_utilization : ℚ
  memory_utilization : ℚ
  recommended_upgrade : String

/-- Entry of the `spot_opportunities` list. -/
structure SpotOpportunityEntry where
  instance_id : String
  instance_type : String
  estimated_savings : ℚ

/-- Entry of the `right_sizing_opportunities` list. -/
structure RightSizingEntry where
  instance_id : String
  current_type : String
  recommended_type : String
  estimated_savings : ℚ

/-- The four opportunity lists built by `analyze_usage_patterns`. -/
structure UsageAnalysis where
  underutilized_instances : List UnderutilizedEntry
  overutilized_instances : List OverutilizedEntry
  spot_opportunities : List SpotOpportunityEntry
  right_sizing_opportunities : List RightSizingEntry

/-- First check of the loop body: underutilized (`cpu < 20 and memory < 30`). -/
def addUnderutilized (acc : UsageAnalysis) (m : NodeMetric) : UsageAnalysis :=
  if m.cpu_utilization < 20 ∧ m.memory_utilization < 30 then
    { acc with underutilized_instances := acc.underutilized_instances ++
        [{ instance_id := m.instance_id,
           instance_type := m.instance_type,
           cpu_utilization := m.cpu_utilization,
           memory_utilization := m.memory_utilization,
           estimated_savings := _calculate_right_sizing_savings m.instance_type m.cpu_utilization }] }
  else acc

/-- Second check: overutilized (`cpu > 80 or memory > 85`). -/
def addOverutilized (acc : UsageAnalysis) (m : NodeMetric) : UsageAnalysis :=
  if m.cpu_utilization > 80 ∨ m.memory_utilization > 85 then
    { acc with overutilized_instances := acc.overutilized_instances ++
        [{ instance_id := m.instance_id,
           instance_type := m.instance_type,
           cpu_utilization := m.cpu_utilization,
           memory_utilization := m.memory_utilization,
           recommended_upgrade := _get_recommended_instance_type m.instance_type
             m.cpu_utilization m.memory_utilization }] }
  else acc

/-- Third check: spot opportunity (`not spot and cpu < 50 and memory < 60`). -/
def addSpotOpportunity (acc : UsageAnalysis) (m : NodeMetric) : UsageAnalysis :=
  if m.spot_instance = false ∧ m.cpu_utilization < 50 ∧ m.memory_utilization < 60 then
    { acc with spot_opportunities := acc.spot_opportunities ++
        [{ instance_id := m.instance_id,
           instance_type := m.instance_type,
           estimated_savings := _calculate_spot_savings m.instance_type }] }
  else acc

/-- Fourth check: right-sizing band with a differing optimal type. -/
def addRightSizing (acc : UsageAnalysis) (m : NodeMetric) : UsageAnalysis :=
  if 20 ≤ m.cpu_utilization ∧ m.cpu_utilization ≤ 60 ∧
     30 ≤ m.memory_utilization ∧ m.memory_utilization ≤ 70 then
    let recommended_type := _get_optimal_instance_type m.cpu_utilization m.memory_utilization
    if recommended_type ≠ m.instance_type then
      { acc with right_sizing_opportunities := acc.right_sizing_opportunities ++
          [{ instance_id := m.instance_id,
             current_type := m.instance_type,
             recommended_type := recommended_type,
             estimated_savings := _calculate_right_sizing_savings m.instance_type
               m.cpu_utilization }] }
    else acc
  else acc

/-- Loop body of `analyze_usage_patterns`: keys not starting with
`instance_` are skipped, otherwise the four independent checks run in
source order. -/
def analyzeStep (acc : UsageAnalysis) (entry : String × NodeMetric) : UsageAnalysis :=
  if pyStartsWith entry.1 "instance_" then
    addRightSizing (addSpotOpportunity (addOverutilized (addUnderutilized acc entry.2) entry.2) entry.2) entry.2
  else acc

/-- `CostAnalyzer.analyze_usage_patterns`. -/
def analyze_usage_patterns (node_metrics : List (String × NodeMetric)) : UsageAnalysis :=
  node_metrics.foldl analyzeStep ⟨[], [], [], []⟩

end CostAnalyzer

namespace CostOptimizationAgent

/-- The dict returned by `CostOptimizationAgent._execute_single_recommendation`:
it catches every exception of the per-action operations and always returns
`{success, estimated_savings?, error?}`. -/
structure SingleResult where
  success : Bool
  estimated_savings : Option ℚ := none
  error : Option String := none

/-- The accumulator of `execute_recommendations`. -/
structure ExecutionResults where
  executed : List Recommendation
  skipped : List Recommendation
  failed : List Recommendation
  total_savings_estimated : ℚ

/-- Loop body of `execute_recommendations`; `dispatch` models
`_execute_single_recommendation` (total: the callee catches all errors,
and our typed `Recommendation` always carries the accessed keys, so the
loop's own `except` is unreachable). -/
def executeStep (dispatch : Recommendation → SingleResult)
    (results : ExecutionResults) (recommendation : Recommendation) : ExecutionResults :=
  if recommendation.confidence_score < 0.7 then
    { results with skipped := results.skipped ++ [recommendation] }
  else
    let result := dispatch recommendation
    if result.success then
      { results with
        executed := results.executed ++ [recommendation],
        total_savings_estimated :=
          results.total_savings_estimated + result.estimated_savings.getD 0.0 }
    else
      { results with failed := results.failed ++ [recommendation] }

/-- `CostOptimizationAgent.execute_recommendations`. -/
def execute_recommendations (dispatch : Recommendation → SingleResult)
    (recommendations : List Recommendation) : ExecutionResults :=
  recommendations.foldl (executeStep dispatch) ⟨[], [], [], 0.0⟩

end CostOptimizationAgent

/-- The shape `_validate_analysis` guarantees of its output: the six
required fields are present, `confidence_score` is numeric (Python
`isinstance(x,(int,float))`, so booleans count) with value in `[0,1]`, and
`estimated_savings` is numeric and non-negative. -/
def analysisValidShape (a : JDict) : Prop :=
  (∀ f ∈ BedrockClient.required_fields, (dictGet? a f).isSome) ∧
  numericJ (dictGetD a "confidence_score" JVal.null) = true ∧
  0 ≤ numValue (dictGetD a "confidence_score" JVal.null) ∧
  numValue (dictGetD a "confidence_score" JVal.null) ≤ 1 ∧
  numericJ (dictGetD a "estimated_savings" JVal.null) = true ∧
  0 ≤ numValue (dictGetD a "estimated_savings" JVal.null)

/-- All six required top-level analysis fields are present. -/
def hasRequiredTopFields (a : JDict) : Prop :=
  (dictGet? a "usage_analysis").isSome ∧
  (dictGet? a "optimization_opportunities").isSome ∧
  (dictGet? a "risk_assessment").isSome ∧
  (dictGet? a "confidence_score").isSome ∧
  (dictGet? a "estimated_savings").isSome ∧
  (dictGet? a "implementation_priority").isSome

/-- Placeholder recommendation used only as the default of `List.getD`. -/
def defaultRecommendation : Recommendation :=
  { action_type := "", action := "", reason := "", estimated_savings := 0,
    priority := "", confidence_score := 0, risk_level := "" }

/-- C1's input node: the snapshot entry described by the spec's example,
with utilization on the collector's 0–100 percent scale. -/
def c1Node : NodeMetric :=
  { instance_id := "i-0001", instance_type := "t3.large",
    availability_zone := "us-west-2a", state := "running",
    cpu_utilization := 15, memory_utilization := 20,
    hourly_cost := 0.0832, spot_instance := false }

/-- C1's input snapshot: exactly one non-spot t3.large at cpu 15 / mem 20. -/
def c1Snapshot : MetricsSnapshot :=
  { node_metrics := [("instance_i-0001", c1Node)], deployments := [],
    daily_average_cost := none }

/-- The single recommendation the code actually produces on `c1Snapshot`:
an upgrade (15 > 0.8 on the fraction-scale threshold), not the claimed
right-size-down and spot migration. -/
def c1ActualOutput : Recommendation :=
  { action_type := "right_size_instance",
    action := "Upgrade instance_i-0001 from t3.large to t3.xlarge",
    instance_id := some "i-0001",
    current_instance_type := some "t3.large",
    target_instance_type := some "t3.xlarge",
    reason := "High utilization (CPU: 1500.0%, Memory: 2000.0%)",
    estimated_savings := -59.904,
    priority := "high",
    confidence_score := 0.9,
    risk_level := "low" }

/-- C2's snapshot: empty cluster with a daily average cost of 100. -/
def c2Snapshot : MetricsSnapshot :=
  { node_metrics := [], deployments := [], daily_average_cost := some 100 }

/-- The scheduling recommendation emitted on `c2Snapshot` inside the window. -/
def c2SchedRec : Recommendation :=
  { action_type := "schedule_workload",
    action := "Schedule batch jobs during off-peak hours",
    reason := "Current time is in off-peak window (2-6 AM UTC)",
    estimated_savings := 10,
    priority := "low",
    confidence_score := 0.6,
    risk_level := "low" }

/-- C3's snapshot: empty cluster with a daily average cost of 10. -/
def c3Snapshot : MetricsSnapshot :=
  { node_metrics := [], deployments := [], daily_average_cost := some 10 }

/-- A structurally valid analysis for the C4 witness. -/
def c4ValidExample : JDict :=
  [("usage_analysis", JVal.obj []),
   ("optimization_opportunities", JVal.obj []),
   ("risk_assessment", JVal.obj []),
   ("confidence_score", JVal.num 0.9),
   ("estimated_savings", JVal.num 42),
   ("implementation_priority", JVal.arr []),
   ("reasoning", JVal.str "all good")]

/-- C6 witness input: one recommendation with confidence 0.5 and savings 7. -/
def c6Recs : List Recommendation :=
  [{ action_type := "migrate_to_spot", action := "Migrate x to spot instance",
     reason := "r", estimated_savings := 7, priority := "medium",
     confidence_score := 0.5, risk_level := "medium" }]

/-- C6 witness insights: high aggregate confidence and a savings multiplier. -/
def c6Fields : JDict :=
  [("recommendation_confidence", JVal.num 0.9),
   ("savings_multiplier", JVal.num 2)]

/-- C7 witness recommendation with confidence exactly 0.7. -/
def c7Rec : Recommendation :=
  { action_type := "migrate_to_spot", action := "Migrate x to spot instance",
    reason := "r", estimated_savings := 5, priority := "medium",
    confidence_score := 0.7, risk_level := "medium" }

/-- C7 witness executor: every dispatch succeeds. -/
def c7Dispatch : Recommendation → CostOptimizationAgent.SingleResult :=
  fun _ => { success := true, estimated_savings := some 5 }

/-- C8 witness node: underutilized (cpu 10, mem 20) and not spot. -/
def c8Node : NodeMetric :=
  { instance_id := "i-0008", instance_type := "t3.large",
    availability_zone := "us-west-2b", state := "running",
    cpu_utilization := 10, memory_utilization := 20,
    hourly_cost := 0.0832, spot_instance := false }

/-- C9 witness snapshot: one deployment with 3 replicas at low usage. -/
def c9Snapshot : MetricsSnapshot :=
  { node_metrics := [],
    deployments := [("api", { replicas := 3, available_replicas := 3,
                              cpu_request := 0.5, memory_request := "512Mi",
                              cpu_usage := 0.1, memory_usage := 0.2 })],
    daily_average_cost := none }

/-- The scale-down recommendation produced on `c9Snapshot`. -/
def c9Rec : Recommendation :=
  { action_type := "scale_pods",
    action := "Scale down api from 3 to 2 replicas",
    deployment_name := some "api",
    namespace_field := some "default",
    target_replicas := some 2,
    reason := "Low CPU and memory utilization",
    estimated_savings := 21.6,
    priority := "medium",
    confidence_score := 0.8,
    risk_level := "low" }

/-- The dict `_validate_analysis` produces from the empty analysis. -/
def emptyValidated : JDict :=
  [("usage_analysis", JVal.obj []),
   ("optimization_opportunities", JVal.obj []),
   ("risk_assessment", JVal.obj []),
   ("confidence_score", JVal.num 0.7),
   ("estimated_savings", JVal.num 0.0),
   ("implementation_priority", JVal.arr [])]

/-- Structural guarantee C5 asserts of every returned analysis: the six
required fields exist, the confidence value lies in `[0,1]` and the savings
value is non-negative. -/
def analysisOk (d : JDict) : Prop :=
  hasRequiredTopFields d ∧
  0 ≤ numValue (dictGetD d "confidence_score" JVal.null) ∧
  numValue (dictGetD d "confidence_score" JVal.null) ≤ 1 ∧
  0 ≤ numValue (dictGetD d "estimated_savings" JVal.null)

/-! ### Association-list lemmas for the dict model -/

theorem dictGet?_dictSet_self (d : JDict) (k : String) (v : JVal) :
    dictGet? (dictSet d k v) k = some v := by
  induction d with
  | nil => simp [dictSet, dictGet?]
  | cons p ps ih =>
    cases hb : p.1 == k with
    | true => simp [dictSet, hb, dictGet?, List.find?]
    | false =>
      simp only [dictSet, hb, Bool.false_eq_true, ite_false]
      simp only [dictGet?, List.find?, hb] at ih ⊢
      exact ih

theorem dictGet?_dictSet_ne (d : JDict) (k k2 : String) (v : JVal)
    (h : k ≠ k2) : dictGet? (dictSet d k v) k2 = dictGet? d k2 := by
  have hkk : (k == k2) = false := beq_eq_false_iff_ne.mpr h
  induction d with
  | nil => simp [dictSet, dictGet?, List.find?, hkk]
  | cons p ps ih =>
    cases hp : p.1 == k with
    | true =>
      have hpk : p.1 = k := eq_of_beq hp
      have hp2 : (p.1 == k2) = false := by rw [hpk]; exact hkk
      simp [dictSet, hp, dictGet?, List.find?, hpk, hkk, hp2]
    | false =>
      simp only [dictSet, hp, Bool.false_eq_true, ite_false]
      cases hp2 : p.1 == k2 with
      | true => simp [dictGet?, List.find?, hp2]
      | false =>
        simp only [dictGet?, List.find?, hp2] at ih ⊢
        exact ih

theorem isSome_dictGet?_dictSet (d : JDict) (k k2 : String) (v : JVal)
    (h : (dictGet? d k2).isSome = true) :
    (dictGet? (dictSet d k v) k2).isSome = true := by
  by_cases hk : k = k2
  · subst hk; rw [dictGet?_dictSet_self]; rfl
  · rw [dictGet?_dictSet_ne d k k2 v hk]; exact h

theorem dictGetD_congr (d : JDict) (k : String) (v w : JVal)
    (h : (dictGet? d k).isSome = true) : dictGetD d k v = dictGetD d k w := by
  unfold dictGetD
  cases hd : dictGet? d k with
  | none => rw [hd] at h; simp at h
  | some x => simp

/-! ### Lemmas about `_validate_analysis` (C4, C5) -/

namespace BedrockClient

theorem ensureField_of_isSome (d : JDict) (f : String)
    (h : (dictGet? d f).isSome = true) : ensureField d f = d := by
  unfold ensureField; rw [if_pos h]

theorem isSome_ensureField_self (d : JDict) (f : String) :
    (dictGet? (ensureField d f) f).isSome = true := by
  unfold ensureField
  split
  · assumption
  · rw [dictGet?_dictSet_self]; rfl

theorem isSome_ensureField_mono (d : JDict) (f k : String)
    (h : (dictGet? d k).isSome = true) :
    (dictGet? (ensureField d f) k).isSome = true := by
  unfold ensureField
  split
  · exact h
  · exact isSome_dictGet?_dictSet d f k _ h

theorem isSome_foldl_ensure (fs : List String) (d : JDict) (k : String)
    (h : (dictGet? d k).isSome = true) :
    (dictGet? (fs.foldl ensureField d) k).isSome = true := by
  induction fs generalizing d with
  | nil => exact h
  | cons f fs ih => exact ih _ (isSome_ensureField_mono d f k h)

theorem isSome_foldl_ensure_mem (fs : List String) :
    ∀ (d : JDict) (k : String), k ∈ fs →
    (dictGet? (fs.foldl ensureField d) k).isSome = true := by
  induction fs with
  | nil => intro d k h; cases h
  | cons f fs ih =>
    intro d k h
    rcases List.mem_cons.mp h with hk | hk
    · subst hk
      exact isSome_foldl_ensure fs _ k (isSome_ensureField_self d k)
    · exact ih _ k hk

end BedrockClient

namespace BedrockClient

theorem foldl_ensure_of_valid (a : JDict)
    (h : ∀ f ∈ required_fields, (dictGet? a f).isSome) :
    required_fields.foldl ensureField a = a := by
  have h1 := ensureField_of_isSome a "usage_analysis" (h _ (by simp [required_fields]))
  have h2 := ensureField_of_isSome a "optimization_opportunities" (h _ (by simp [required_fields]))
  have h3 := ensureField_of_isSome a "risk_assessment" (h _ (by simp [required_fields]))
  have h4 := ensureField_of_isSome a "confidence_score" (h _ (by simp [required_fields]))
  have h5 := ensureField_of_isSome a "estimated_savings" (h _ (by simp [required_fields]))
  have h6 := ensureField_of_isSome a "implementation_priority" (h _ (by simp [required_fields]))
  simp only [required_fields, List.foldl, h1, h2, h3, h4, h5, h6]

theorem validate_of_valid (a : JDict) (h : analysisValidShape a) :
    _validate_analysis a = a := by
  obtain ⟨hf, hcn, hc0, hc1, hsn, hs0⟩ := h
  have hconf : (dictGet? a "confidence_score").isSome = true :=
    hf _ (by simp [required_fields])
  have hsav : (dictGet? a "estimated_savings").isSome = true :=
    hf _ (by simp [required_fields])
  have e1 : required_fields.foldl ensureField a = a := foldl_ensure_of_valid a hf
  have ec : dictGetD a "confidence_score" (JVal.num 0.7) =
      dictGetD a "confidence_score" JVal.null := dictGetD_congr _ _ _ _ hconf
  have es : dictGetD a "estimated_savings" (JVal.num 0.0) =
      dictGetD a "estimated_savings" JVal.null := dictGetD_congr _ _ _ _ hsav
  have hcneg : ¬(numericJ (dictGetD a "confidence_score" (JVal.num 0.7)) = false ∨
      numValue (dictGetD a "confidence_score" (JVal.num 0.7)) < 0 ∨
      numValue (dictGetD a "confidence_score" (JVal.num 0.7)) > 1) := by
    rw [ec]; push_neg
    exact ⟨by simp [hcn], hc0, hc1⟩
  have hsneg : ¬(numericJ (dictGetD a "estimated_savings" (JVal.num 0.0)) = false ∨
      numValue (dictGetD a "estimated_savings" (JVal.num 0.0)) < 0) := by
    rw [es]; push_neg
    exact ⟨by simp [hsn], hs0⟩
  unfold _validate_analysis
  rw [e1]
  dsimp only
  rw [if_neg hcneg, if_neg hsneg]

theorem confProps_of_get (d : JDict) (q : ℚ)
    (h : dictGet? d "confidence_score" = some (JVal.num q)) :
    numericJ (dictGetD d "confidence_score" JVal.null) = true ∧
    numValue (dictGetD d "confidence_score" JVal.null) = q := by
  simp [dictGetD, h, numericJ, numValue]

theorem savProps_of_get (d : JDict) (q : ℚ)
    (h : dictGet? d "estimated_savings" = some (JVal.num q)) :
    numericJ (dictGetD d "estimated_savings" JVal.null) = true ∧
    numValue (dictGetD d "estimated_savings" JVal.null) = q := by
  simp [dictGetD, h, numericJ, numValue]

theorem validShape_validate (a : JDict) :
    analysisValidShape (_validate_analysis a) := by
  have hpres : ∀ f ∈ required_fields,
      (dictGet? (required_fields.foldl ensureField a) f).isSome = true :=
    fun f hfm => isSome_foldl_ensure_mem required_fields a f hfm
  unfold _validate_analysis
  dsimp only
  generalize hg : required_fields.foldl ensureField a = a1 at hpres ⊢
  have hcpres : (dictGet? a1 "confidence_score").isSome = true :=
    hpres _ (by simp [required_fields])
  have hspres : (dictGet? a1 "estimated_savings").isSome = true :=
    hpres _ (by simp [required_fields])
  split_ifs with h1 h2 h3
  · -- conf replaced, savings replaced
    refine ⟨fun f hfm => isSome_dictGet?_dictSet _ _ _ _
              (isSome_dictGet?_dictSet _ _ _ _ (hpres f hfm)), ?_⟩
    have hcget : dictGet? (dictSet (dictSet a1 "confidence_score" (JVal.num 0.7))
        "estimated_savings" (JVal.num 0.0)) "confidence_score" = some (JVal.num 0.7) := by
      rw [dictGet?_dictSet_ne _ _ _ _ (by decide)]
      exact dictGet?_dictSet_self _ _ _
    have hsget : dictGet? (dictSet (dictSet a1 "confidence_score" (JVal.num 0.7))
        "estimated_savings" (JVal.num 0.0)) "estimated_savings" = some (JVal.num 0.0) :=
      dictGet?_dictSet_self _ _ _
    obtain ⟨hcn, hcv⟩ := confProps_of_get _ _ hcget
    obtain ⟨hsn, hsv⟩ := savProps_of_get _ _ hsget
    rw [hcv, hsv]
    exact ⟨hcn, by norm_num, by norm_num, hsn, by norm_num⟩
  · -- conf replaced, savings kept
    push_neg at h2
    obtain ⟨hsn2, hs02⟩ := h2
    refine ⟨fun f hfm => isSome_dictGet?_dictSet _ _ _ _ (hpres f hfm), ?_⟩
    have hcget : dictGet? (dictSet a1 "confidence_score" (JVal.num 0.7))
        "confidence_score" = some (JVal.num 0.7) := dictGet?_dictSet_self _ _ _
    obtain ⟨hcn, hcv⟩ := confProps_of_get _ _ hcget
    have hspres2 : (dictGet? (dictSet a1 "confidence_score" (JVal.num 0.7))
        "estimated_savings").isSome = true := isSome_dictGet?_dictSet _ _ _ _ hspres
    have hsd : dictGetD (dictSet a1 "confidence_score" (JVal.num 0.7))
        "estimated_savings" JVal.null =
        dictGetD (dictSet a1 "confidence_score" (JVal.num 0.7))
        "estimated_savings" (JVal.num 0.0) := dictGetD_congr _ _ _ _ hspres2
    rw [hcv]
    exact ⟨hcn, by norm_num, by norm_num, by rw [hsd]; simpa using hsn2,
           by rw [hsd]; exact hs02⟩
  · -- conf kept, savings replaced
    push_neg at h1
    obtain ⟨hcn1, hc01, hc11⟩ := h1
    refine ⟨fun f hfm => isSome_dictGet?_dictSet _ _ _ _ (hpres f hfm), ?_⟩
    have hcd : dictGetD (dictSet a1 "estimated_savings" (JVal.num 0.0))
        "confidence_score" JVal.null = dictGetD a1 "confidence_score" JVal.null := by
      unfold dictGetD
      rw [dictGet?_dictSet_ne _ _ _ _ (by decide)]
    have hcdd : dictGetD a1 "confidence_score" JVal.null =
        dictGetD a1 "confidence_score" (JVal.num 0.7) := dictGetD_congr _ _ _ _ hcpres
    have hsget : dictGet? (dictSet a1 "estimated_savings" (JVal.num 0.0))
        "estimated_savings" = some (JVal.num 0.0) := dictGet?_dictSet_self _ _ _
    obtain ⟨hsn, hsv⟩ := savProps_of_get _ _ hsget
    rw [hsv]
    exact ⟨by rw [hcd, hcdd]; simpa using hcn1, by rw [hcd, hcdd]; exact hc01,
           by rw [hcd, hcdd]; exact hc11, hsn, by norm_num⟩
  · -- both kept
    push_neg at h1 h3
    obtain ⟨hcn1, hc01, hc11⟩ := h1
    obtain ⟨hsn3, hs03⟩ := h3
    have hcdd : dictGetD a1 "confidence_score" JVal.null =
        dictGetD a1 "confidence_score" (JVal.num 0.7) := dictGetD_congr _ _ _ _ hcpres
    have hsdd : dictGetD a1 "estimated_savings" JVal.null =
        dictGetD a1 "estimated_savings" (JVal.num 0.0) := dictGetD_congr _ _ _ _ hspres
    exact ⟨hpres, by rw [hcdd]; simpa using hcn1, by rw [hcdd]; exact hc01,
           by rw [hcdd]; exact hc11, by rw [hsdd]; simpa using hsn3,
           by rw [hsdd]; exact hs03⟩

end BedrockClient

/-! ### Claim C4 -/

/-- C4: the AI-analysis validator is idempotent — an analysis that already
satisfies the validated shape is returned unchanged, hence validating twice
equals validating once — and validating the empty analysis `{}` yields all
six required fields with their defaults (confidence 0.7, savings 0.0,
priority `[]`, `{}` for the three structured fields). -/
theorem c4_validator_idempotent :
    (∀ a : JDict, analysisValidShape a → BedrockClient._validate_analysis a = a) ∧
    (∀ a : JDict, BedrockClient._validate_analysis (BedrockClient._validate_analysis a) =
      BedrockClient._validate_analysis a) ∧
    BedrockClient._validate_analysis [] =
      [("usage_analysis", JVal.obj []),
       ("optimization_opportunities", JVal.obj []),
       ("risk_assessment", JVal.obj []),
       ("confidence_score", JVal.num 0.7),
       ("estimated_savings", JVal.num 0.0),
       ("implementation_priority", JVal.arr [])] :=
  ⟨BedrockClient.validate_of_valid,
   fun a => BedrockClient.validate_of_valid _ (BedrockClient.validShape_validate a),
   by
    show BedrockClient._validate_analysis [] = emptyValidated
    have hb : analysisValidShape emptyValidated := by
      unfold analysisValidShape
      have e1 : dictGetD emptyValidated "confidence_score" JVal.null = JVal.num 0.7 := rfl
      have e2 : dictGetD emptyValidated "estimated_savings" JVal.null = JVal.num 0.0 := rfl
      rw [e1, e2]
      exact ⟨by decide, by norm_num [numericJ], by norm_num [numValue],
             by norm_num [numValue], by norm_num [numericJ], by norm_num [numValue]⟩
    have h1 : BedrockClient.required_fields.foldl BedrockClient.ensureField ([] : JDict) =
        emptyValidated := rfl
    have h2 : BedrockClient.required_fields.foldl BedrockClient.ensureField emptyValidated =
        emptyValidated := BedrockClient.foldl_ensure_of_valid _ hb.1
    have h3 : BedrockClient._validate_analysis [] =
        BedrockClient._validate_analysis emptyValidated := by
      unfold BedrockClient._validate_analysis
      dsimp only
      rw [h1, h2]
    rw [h3, BedrockClient.validate_of_valid _ hb]⟩

/-- C4 witness: a concrete already-valid analysis is returned unchanged. -/
theorem c4_validator_idempotent_witness :
    BedrockClient._validate_analysis c4ValidExample = c4ValidExample :=
  c4_validator_idempotent.1 c4ValidExample (by
    unfold analysisValidShape
    have e1 : dictGetD c4ValidExample "confidence_score" JVal.null = JVal.num 0.9 := rfl
    have e2 : dictGetD c4ValidExample "estimated_savings" JVal.null = JVal.num 42 := rfl
    rw [e1, e2]
    exact ⟨by decide, by norm_num [numericJ], by norm_num [numValue], by norm_num [numValue],
           by norm_num [numericJ], by norm_num [numValue]⟩)

/-! ### Claim C5 -/

namespace BedrockClient

theorem analysisOk_intro (d : JDict) (qc qs : ℚ)
    (hr : hasRequiredTopFields d)
    (hc : dictGetD d "confidence_score" JVal.null = JVal.num qc)
    (hs : dictGetD d "estimated_savings" JVal.null = JVal.num qs)
    (h0 : 0 ≤ qc) (h1 : qc ≤ 1) (h2 : 0 ≤ qs) : analysisOk d := by
  unfold analysisOk
  rw [hc, hs]
  exact ⟨hr, by simpa [numValue] using h0, by simpa [numValue] using h1,
         by simpa [numValue] using h2⟩

theorem analysisOk_fallback : analysisOk _get_fallback_analysis :=
  analysisOk_intro _ 0.5 0.0 ⟨rfl, rfl, rfl, rfl, rfl, rfl⟩ rfl rfl
    (by norm_num) (by norm_num) (by norm_num)

theorem analysisOk_textResponse (t : String) : analysisOk (_parse_text_response t) := by
  unfold _parse_text_response
  dsimp only
  by_cases h1 : strContainsSub t.toLower "underutilized" = true <;>
    by_cases h2 : strContainsSub t.toLower "savings" = true <;>
      simp only [h1, h2, if_true, if_false, Bool.false_eq_true, ite_false, ite_true]
  · exact analysisOk_intro _ 0.8 100.0 ⟨rfl, rfl, rfl, rfl, rfl, rfl⟩ rfl rfl
      (by norm_num) (by norm_num) (by norm_num)
  · exact analysisOk_intro _ 0.8 0.0 ⟨rfl, rfl, rfl, rfl, rfl, rfl⟩ rfl rfl
      (by norm_num) (by norm_num) (by norm_num)
  · exact analysisOk_intro _ 0.7 100.0 ⟨rfl, rfl, rfl, rfl, rfl, rfl⟩ rfl rfl
      (by norm_num) (by norm_num) (by norm_num)
  · exact analysisOk_intro _ 0.7 0.0 ⟨rfl, rfl, rfl, rfl, rfl, rfl⟩ rfl rfl
      (by norm_num) (by norm_num) (by norm_num)

theorem analysisOk_of_validShape (d : JDict) (h : analysisValidShape d) :
    analysisOk d := by
  obtain ⟨hf, _, hc0, hc1, _, hs0⟩ := h
  exact ⟨⟨hf _ (by simp [required_fields]), hf _ (by simp [required_fields]),
          hf _ (by simp [required_fields]), hf _ (by simp [required_fields]),
          hf _ (by simp [required_fields]), hf _ (by simp [required_fields])⟩,
         hc0, hc1, hs0⟩

set_option maxHeartbeats 400000 in
theorem analysisOk_parse_ai_response (body : JDict) (jsonLoads : String → Option JDict) :
    analysisOk (_parse_ai_response body jsonLoads) := by
  unfold _parse_ai_response
  dsimp only
  split
  · split
    · split
      · split
        · split
          · split
            · exact analysisOk_of_validShape _ (validShape_validate _)
            · exact analysisOk_textResponse _
          · exact analysisOk_textResponse _
        · exact analysisOk_textResponse _
      · exact analysisOk_fallback
    · exact analysisOk_fallback
  · exact analysisOk_fallback

end BedrockClient

/-- C5: `analyze_cost_optimization` is total over every model-call behaviour
(raised error, empty or malformed content, undecodable JSON): it always
returns an analysis with the six required fields, confidence in `[0,1]` and
non-negative savings; and when the invocation itself fails it returns the
static fallback analysis, whose confidence is 0.5, savings 0.0 and reasoning
the sentinel string. -/
theorem c5_analyze_total_with_fallback :
    (∀ (invocation : BedrockClient.BedrockInvocation) (jsonLoads : String → Option JDict),
       analysisOk (BedrockClient.analyze_cost_optimization invocation jsonLoads)) ∧
    (∀ jsonLoads : String → Option JDict,
       BedrockClient.analyze_cost_optimization BedrockClient.BedrockInvocation.raises jsonLoads =
         BedrockClient._get_fallback_analysis) ∧
    dictGetD BedrockClient._get_fallback_analysis "confidence_score" JVal.null = JVal.num 0.5 ∧
    dictGetD BedrockClient._get_fallback_analysis "estimated_savings" JVal.null = JVal.num 0.0 ∧
    dictGetD BedrockClient._get_fallback_analysis "reasoning" JVal.null =
      JVal.str "Fallback analysis due to AI service unavailability" := by
  refine ⟨?_, fun _ => rfl, rfl, rfl, rfl⟩
  intro invocation jsonLoads
  cases invocation with
  | raises => exact BedrockClient.analysisOk_fallback
  | returns body => exact BedrockClient.analysisOk_parse_ai_response body jsonLoads

/-! ### Claim C2 -/

/-- C2 counterexample: at UTC hour 6 the generator still emits a
recommendation (the code's window test is `2 <= hour <= 6`, inclusive),
refuting the claimed half-open interval `[2,6)`. -/
theorem c2_hour_six_counterexample :
    RecommendationEngine._generate_scheduling_recommendations c2Snapshot 6 ≠ [] := by
  intro hempty
  have hlen : (RecommendationEngine._generate_scheduling_recommendations c2Snapshot 6).length
      = 1 := rfl
  rw [hempty] at hlen
  simp at hlen

/-- C2 (amended): the scheduling sub-generator emits a recommendation iff
the current UTC hour lies in the closed interval `[2,6]` (hour 6 included),
and every emitted recommendation's savings equal 0.1 times the snapshot's
daily average cost. -/
theorem c2_scheduling_window_inclusive :
    ∀ (m : MetricsSnapshot) (hour : ℕ),
      ((RecommendationEngine._generate_scheduling_recommendations m hour ≠ []) ↔
        (2 ≤ hour ∧ hour ≤ 6)) ∧
      ∀ r ∈ RecommendationEngine._generate_scheduling_recommendations m hour,
        r.estimated_savings = m.daily_average_cost.getD 0 * 0.1 := by
  intro m hour
  constructor
  · by_cases hc : 2 ≤ hour ∧ hour ≤ 6 <;>
      simp [RecommendationEngine._generate_scheduling_recommendations, hc]
  · intro r hr
    unfold RecommendationEngine._generate_scheduling_recommendations at hr
    dsimp only at hr
    split at hr
    · rcases List.mem_singleton.mp hr with rfl
      rfl
    · cases hr

/-- C2 witness: at hour 3 on a snapshot with daily average cost 100 the
generator fires and the emitted recommendation's savings are 100 × 0.1. -/
theorem c2_scheduling_window_inclusive_witness :
    (RecommendationEngine._generate_scheduling_recommendations c2Snapshot 3 ≠ []) ∧
    c2SchedRec.estimated_savings = c2Snapshot.daily_average_cost.getD 0 * 0.1 :=
  ⟨(c2_scheduling_window_inclusive c2Snapshot 3).1.mpr (by decide),
   (c2_scheduling_window_inclusive c2Snapshot 3).2 c2SchedRec (by
      simp [RecommendationEngine._generate_scheduling_recommendations, c2Snapshot, c2SchedRec]
      norm_num)⟩

/-! ### Claim C3 -/

/-- C3 counterexample: two runs on the same snapshot and the same AI
analysis, one at UTC hour 1 and one at hour 2, return different
recommendation lists (the scheduling generator reads the wall clock, which
is not part of the inputs named by the claim). -/
theorem c3_clock_counterexample :
    RecommendationEngine.generate_recommendations c3Snapshot [] 1 ≠
      RecommendationEngine.generate_recommendations c3Snapshot [] 2 := by
  intro heq
  have hl1 : (RecommendationEngine.generate_recommendations c3Snapshot [] 1).length = 0 := rfl
  have hl2 : (RecommendationEngine.generate_recommendations c3Snapshot [] 2).length = 1 := rfl
  rw [heq, hl2] at hl1
  exact Nat.one_ne_zero hl1

/-- C3 (amended): `generate_recommendations` is deterministic in the snapshot,
the AI analysis AND the current UTC hour — runs agreeing on all three agree
on the full ordered output; moreover the hour only matters through membership
in the scheduling window, so runs whose hours lie on the same side of the
window also agree. -/
theorem c3_deterministic_given_hour :
    (∀ (m1 m2 : MetricsSnapshot) (a1 a2 : JDict) (h1 h2 : ℕ),
       m1 = m2 → a1 = a2 → h1 = h2 →
       RecommendationEngine.generate_recommendations m1 a1 h1 =
         RecommendationEngine.generate_recommendations m2 a2 h2) ∧
    (∀ (m : MetricsSnapshot) (a : JDict) (h1 h2 : ℕ),
       ((2 ≤ h1 ∧ h1 ≤ 6) ↔ (2 ≤ h2 ∧ h2 ≤ 6)) →
       RecommendationEngine.generate_recommendations m a h1 =
         RecommendationEngine.generate_recommendations m a h2) := by
  constructor
  · intro m1 m2 a1 a2 h1 h2 hm ha hh
    subst hm; subst ha; subst hh; rfl
  · intro m a h1 h2 hiff
    have hs : RecommendationEngine._generate_scheduling_recommendations m h1 =
        RecommendationEngine._generate_scheduling_recommendations m h2 := by
      unfold RecommendationEngine._generate_scheduling_recommendations
      by_cases hc : 2 ≤ h1 ∧ h1 ≤ 6
      · rw [if_pos hc, if_pos (hiff.mp hc)]
      · rw [if_neg hc, if_neg (fun hcc => hc (hiff.mpr hcc))]
    unfold RecommendationEngine.generate_recommendations
    dsimp only
    rw [hs]

/-- C3 witness: two runs at the distinct hours 3 and 5 (both inside the
scheduling window) return the same list. -/
theorem c3_deterministic_given_hour_witness :
    RecommendationEngine.generate_recommendations c3Snapshot [] 3 =
      RecommendationEngine.generate_recommendations c3Snapshot [] 5 :=
  c3_deterministic_given_hour.2 c3Snapshot [] 3 5 (by decide)

/-! ### Claim C10 -/

namespace RecommendationEngine

theorem apply_ai_insights_empty_obj (recs : List Recommendation) (c : JVal) :
    _apply_ai_insights recs (JVal.obj []) c = recs := by
  unfold _apply_ai_insights
  norm_num [dictGetD, dictGet?, List.find?, numericJ, numValue]

theorem generate_no_ai_key (m : MetricsSnapshot) (a : JDict) (hour : ℕ)
    (hnone : dictGet? a "ai_analysis" = none) :
    generate_recommendations m a hour = generate_recommendations m [] hour := by
  unfold generate_recommendations
  dsimp only
  rw [show dictGetD a "ai_analysis" (JVal.obj []) = JVal.obj [] from by
        unfold dictGetD; rw [hnone]; rfl]
  rw [show dictGetD ([] : JDict) "ai_analysis" (JVal.obj []) = JVal.obj [] from rfl]
  rw [apply_ai_insights_empty_obj, apply_ai_insights_empty_obj]

end RecommendationEngine

namespace BedrockClient

theorem text_no_ai_key (t : String) :
    dictGet? (_parse_text_response t) "ai_analysis" = none := by
  unfold _parse_text_response
  dsimp only
  by_cases h1 : strContainsSub t.toLower "underutilized" = true <;>
    by_cases h2 : strContainsSub t.toLower "savings" = true <;>
      simp only [h1, h2, if_true, if_false, Bool.false_eq_true, ite_false, ite_true] <;> rfl

end BedrockClient

/-- C10: in the assembled pipeline the AI merge step is inert on the Bedrock
client's text-fallback and failure-fallback analyses — neither carries an
`ai_analysis` key, so `generate_recommendations` produces exactly the list
it produces with an empty AI analysis (no recommendation's confidence or
savings is changed by the merge). -/
theorem c10_ai_merge_inert :
    ∀ (m : MetricsSnapshot) (hour : ℕ) (t : String),
      RecommendationEngine.generate_recommendations m
          (BedrockClient._parse_text_response t) hour =
        RecommendationEngine.generate_recommendations m [] hour ∧
      RecommendationEngine.generate_recommendations m
          BedrockClient._get_fallback_analysis hour =
        RecommendationEngine.generate_recommendations m [] hour :=
  fun m hour t =>
    ⟨RecommendationEngine.generate_no_ai_key m _ hour (BedrockClient.text_no_ai_key t),
     RecommendationEngine.generate_no_ai_key m _ hour rfl⟩

/-! ### Claim C1 -/

theorem formatPercent1_fifteen : formatPercent1 15 = "1500.0%" := by
  have hr : roundHalfEven ((15 : ℚ) * 1000) = 15000 := by
    unfold roundHalfEven; norm_num
  unfold formatPercent1
  dsimp only
  rw [hr]
  decide

theorem formatPercent1_twenty : formatPercent1 20 = "2000.0%" := by
  have hr : roundHalfEven ((20 : ℚ) * 1000) = 20000 := by
    unfold roundHalfEven; norm_num
  unfold formatPercent1
  dsimp only
  rw [hr]
  decide

theorem c1_instance_eval :
    RecommendationEngine._generate_instance_recommendations c1Snapshot = [c1ActualOutput] := by
  have hsw : pyStartsWith "instance_i-0001" "instance_" = true := by decide
  have hlt : RecommendationEngine._get_larger_instance_type "t3.large" = some "t3.xlarge" := by
    decide
  unfold RecommendationEngine._generate_instance_recommendations c1Snapshot c1Node
  simp only [List.flatMap_cons, List.flatMap_nil, List.append_nil]
  rw [hsw]
  rw [if_neg (by decide : ¬(true = false))]
  rw [if_neg (show ¬((15 : ℚ) < 0.3 ∧ (20 : ℚ) < 0.4) by norm_num)]
  rw [if_pos (show (15 : ℚ) > 0.8 ∨ (20 : ℚ) > 0.85 by norm_num)]
  rw [hlt]
  dsimp only
  rw [if_pos (by decide : ("t3.xlarge" : String) ≠ "t3.large")]
  rw [formatPercent1_fifteen, formatPercent1_twenty]
  have hstr1 : "Upgrade " ++ "instance_i-0001" ++ " from " ++ "t3.large" ++ " to " ++
      "t3.xlarge" = "Upgrade instance_i-0001 from t3.large to t3.xlarge" := rfl
  have hstr2 : "High utilization (CPU: " ++ "1500.0%" ++ ", Memory: " ++ "2000.0%" ++ ")" =
      "High utilization (CPU: 1500.0%, Memory: 2000.0%)" := rfl
  rw [hstr1, hstr2]
  have p1 : RecommendationEngine.pricing "t3.large" = 0.0832 := by
    unfold RecommendationEngine.pricing
    rw [if_neg (by decide), if_pos rfl]
  have p2 : RecommendationEngine.pricing "t3.xlarge" = 0.1664 := by
    unfold RecommendationEngine.pricing
    rw [if_neg (by decide), if_neg (by decide), if_pos rfl]
  have hsav : -RecommendationEngine._calculate_instance_cost_increase "t3.large" "t3.xlarge" =
      (-59.904 : ℚ) := by
    unfold RecommendationEngine._calculate_instance_cost_increase
      RecommendationEngine._calculate_instance_savings
    dsimp only
    rw [p1, p2]
    norm_num
  rw [hsav]
  rfl

theorem c1_spot_eval :
    RecommendationEngine._generate_spot_recommendations c1Snapshot = [] := by
  have hsw : pyStartsWith "instance_i-0001" "instance_" = true := by decide
  unfold RecommendationEngine._generate_spot_recommendations c1Snapshot c1Node
  simp only [List.flatMap_cons, List.flatMap_nil, List.append_nil]
  rw [hsw]
  rw [if_neg (by decide : ¬(true = false))]
  rw [if_neg (show ¬(True ∧ (15 : ℚ) < 0.6 ∧ (20 : ℚ) < 0.7) by norm_num)]

/-- C1: on the spec's example snapshot — one non-spot `t3.large` node entry
with `cpu_utilization = 15` and `memory_utilization = 20` (the collector's
0–100 percent scale) and an empty AI analysis — `generate_recommendations`
produces NEITHER the claimed right-sizing-to-`t3.medium` recommendation NOR
the claimed spot-migration recommendation: because the generator compares
the percent-scale values against fraction-scale thresholds (0.3/0.4,
0.8/0.85, 0.6/0.7), it instead emits exactly one upgrade recommendation to
`t3.xlarge` with negative savings.  (Hour 10 is outside the scheduling
window.) -/
theorem c1_percent_scale_evaluation :
    RecommendationEngine.generate_recommendations c1Snapshot [] 10 = [c1ActualOutput] := by
  have hpod : RecommendationEngine._generate_pod_scaling_recommendations c1Snapshot = [] := rfl
  have hsched : RecommendationEngine._generate_scheduling_recommendations c1Snapshot 10 = [] :=
    rfl
  unfold RecommendationEngine.generate_recommendations
  dsimp only
  rw [hpod, hsched, c1_instance_eval, c1_spot_eval]
  rw [show dictGetD ([] : JDict) "ai_analysis" (JVal.obj []) = JVal.obj [] from rfl]
  rw [RecommendationEngine.apply_ai_insights_empty_obj]
  rfl

/-! ### Claim C7 -/

namespace CostOptimizationAgent

theorem execute_foldl_skipped (dispatch : Recommendation → SingleResult) :
    ∀ (recs : List Recommendation) (acc : ExecutionResults),
      (recs.foldl (executeStep dispatch) acc).skipped =
        acc.skipped ++ recs.filter (fun r => decide (r.confidence_score < 0.7)) := by
  intro recs
  induction recs with
  | nil => intro acc; simp
  | cons r rest ih =>
    intro acc
    simp only [List.foldl_cons, List.filter_cons]
    by_cases hc : r.confidence_score < 0.7
    · rw [ih]
      have hstep : (executeStep dispatch acc r).skipped = acc.skipped ++ [r] := by
        unfold executeStep
        rw [if_pos hc]
      rw [hstep]
      simp [hc]
    · rw [ih]
      have hstep : (executeStep dispatch acc r).skipped = acc.skipped := by
        unfold executeStep
        rw [if_neg hc]
        dsimp only
        split <;> rfl
      rw [hstep]
      simp [hc]

theorem executeStep_executed_mono (dispatch : Recommendation → SingleResult)
    (acc : ExecutionResults) (r0 r : Recommendation) (h : r ∈ acc.executed) :
    r ∈ (executeStep dispatch acc r0).executed := by
  unfold executeStep
  split
  · exact h
  · dsimp only
    split
    · simp [List.mem_append, h]
    · exact h

theorem executeStep_failed_mono (dispatch : Recommendation → SingleResult)
    (acc : ExecutionResults) (r0 r : Recommendation) (h : r ∈ acc.failed) :
    r ∈ (executeStep dispatch acc r0).failed := by
  unfold executeStep
  split
  · exact h
  · dsimp only
    split
    · exact h
    · simp [List.mem_append, h]

theorem execute_foldl_mono (dispatch : Recommendation → SingleResult) :
    ∀ (recs : List Recommendation) (acc : ExecutionResults) (r : Recommendation),
      (r ∈ acc.executed → r ∈ (recs.foldl (executeStep dispatch) acc).executed) ∧
      (r ∈ acc.failed → r ∈ (recs.foldl (executeStep dispatch) acc).failed) := by
  intro recs
  induction recs with
  | nil => intro acc r; exact ⟨id, id⟩
  | cons r0 rest ih =>
    intro acc r
    simp only [List.foldl_cons]
    exact ⟨fun h => (ih _ r).1 (executeStep_executed_mono dispatch acc r0 r h),
           fun h => (ih _ r).2 (executeStep_failed_mono dispatch acc r0 r h)⟩

theorem execute_foldl_dispatched (dispatch : Recommendation → SingleResult) :
    ∀ (recs : List Recommendation) (acc : ExecutionResults) (r : Recommendation),
      r ∈ recs → ¬(r.confidence_score < 0.7) →
      r ∈ (recs.foldl (executeStep dispatch) acc).executed ∨
      r ∈ (recs.foldl (executeStep dispatch) acc).failed := by
  intro recs
  induction recs with
  | nil => intro acc r hr; cases hr
  | cons r0 rest ih =>
    intro acc r hr hc
    simp only [List.foldl_cons]
    rcases List.mem_cons.mp hr with hhead | htail
    · subst hhead
      have hstep : r ∈ (executeStep dispatch acc r).executed ∨
          r ∈ (executeStep dispatch acc r).failed := by
        unfold executeStep
        rw [if_neg hc]
        dsimp only
        split
        · exact Or.inl (by simp [List.mem_append])
        · exact Or.inr (by simp [List.mem_append])
      rcases hstep with he | hf
      · exact Or.inl ((execute_foldl_mono dispatch rest _ r).1 he)
      · exact Or.inr ((execute_foldl_mono dispatch rest _ r).2 hf)
    · exact ih _ r htail hc

end CostOptimizationAgent

/-- C7: the execution coordinator's confidence gate is a strict comparison —
the `skipped` list is exactly the sub-list of recommendations whose
confidence is strictly below 0.7 (in order), and every recommendation with
confidence at least 0.7 (in particular, exactly 0.7) is dispatched, ending
in `executed` or `failed`, never in `skipped`. -/
theorem c7_confidence_gate :
    ∀ (dispatch : Recommendation → CostOptimizationAgent.SingleResult)
      (recs : List Recommendation),
      (CostOptimizationAgent.execute_recommendations dispatch recs).skipped =
        recs.filter (fun r => decide (r.confidence_score < 0.7)) ∧
      ∀ r ∈ recs, ¬(r.confidence_score < 0.7) →
        (r ∈ (CostOptimizationAgent.execute_recommendations dispatch recs).executed ∨
         r ∈ (CostOptimizationAgent.execute_recommendations dispatch recs).failed) := by
  intro dispatch recs
  constructor
  · have h := CostOptimizationAgent.execute_foldl_skipped dispatch recs ⟨[], [], [], 0.0⟩
    simpa [CostOptimizationAgent.execute_recommendations] using h
  · intro r hr hc
    exact CostOptimizationAgent.execute_foldl_dispatched dispatch recs _ r hr hc

/-- C7 witness: a recommendation with confidence exactly 0.7 is dispatched
(and, the dispatch succeeding, not skipped). -/
theorem c7_confidence_gate_witness :
    c7Rec ∈ (CostOptimizationAgent.execute_recommendations c7Dispatch [c7Rec]).executed ∨
    c7Rec ∈ (CostOptimizationAgent.execute_recommendations c7Dispatch [c7Rec]).failed :=
  (c7_confidence_gate c7Dispatch [c7Rec]).2 c7Rec (List.mem_singleton_self c7Rec)
    (by norm_num [c7Rec])

/-! ### Claim C8 -/

namespace CostAnalyzer

theorem addOverutilized_under (acc : UsageAnalysis) (m : NodeMetric) :
    (addOverutilized acc m).underutilized_instances = acc.underutilized_instances := by
  unfold addOverutilized; split <;> rfl

theorem addSpotOpportunity_under (acc : UsageAnalysis) (m : NodeMetric) :
    (addSpotOpportunity acc m).underutilized_instances = acc.underutilized_instances := by
  unfold addSpotOpportunity; split <;> rfl

theorem addRightSizing_under (acc : UsageAnalysis) (m : NodeMetric) :
    (addRightSizing acc m).underutilized_instances = acc.underutilized_instances := by
  unfold addRightSizing
  split
  · dsimp only
    split <;> rfl
  · rfl

theorem addUnderutilized_spot (acc : UsageAnalysis) (m : NodeMetric) :
    (addUnderutilized acc m).spot_opportunities = acc.spot_opportunities := by
  unfold addUnderutilized; split <;> rfl

theorem addOverutilized_spot (acc : UsageAnalysis) (m : NodeMetric) :
    (addOverutilized acc m).spot_opportunities = acc.spot_opportunities := by
  unfold addOverutilized; split <;> rfl

theorem addRightSizing_spot (acc : UsageAnalysis) (m : NodeMetric) :
    (addRightSizing acc m).spot_opportunities = acc.spot_opportunities := by
  unfold addRightSizing
  split
  · dsimp only
    split <;> rfl
  · rfl

theorem analyzeStep_under_mono (acc : UsageAnalysis) (p : String × NodeMetric)
    (e : UnderutilizedEntry) (h : e ∈ acc.underutilized_instances) :
    e ∈ (analyzeStep acc p).underutilized_instances := by
  unfold analyzeStep
  split
  · rw [addRightSizing_under, addSpotOpportunity_under, addOverutilized_under]
    unfold addUnderutilized
    split
    · simp [List.mem_append, h]
    · exact h
  · exact h

theorem analyzeStep_spot_mono (acc : UsageAnalysis) (p : String × NodeMetric)
    (e : SpotOpportunityEntry) (h : e ∈ acc.spot_opportunities) :
    e ∈ (analyzeStep acc p).spot_opportunities := by
  unfold analyzeStep
  split
  · rw [addRightSizing_spot]
    unfold addSpotOpportunity
    split
    · rw [addOverutilized_spot, addUnderutilized_spot] at *
      simp [List.mem_append, h]
    · rw [addOverutilized_spot, addUnderutilized_spot]
      exact h
  · exact h

theorem analyze_foldl_under_mono :
    ∀ (l : List (String × NodeMetric)) (acc : UsageAnalysis) (e : UnderutilizedEntry),
      e ∈ acc.underutilized_instances →
      e ∈ (l.foldl analyzeStep acc).underutilized_instances := by
  intro l
  induction l with
  | nil => intro acc e h; exact h
  | cons p rest ih =>
    intro acc e h
    exact ih _ e (analyzeStep_under_mono acc p e h)

theorem analyze_foldl_spot_mono :
    ∀ (l : List (String × NodeMetric)) (acc : UsageAnalysis) (e : SpotOpportunityEntry),
      e ∈ acc.spot_opportunities →
      e ∈ (l.foldl analyzeStep acc).spot_opportunities := by
  intro l
  induction l with
  | nil => intro acc e h; exact h
  | cons p rest ih =>
    intro acc e h
    exact ih _ e (analyzeStep_spot_mono acc p e h)

theorem analyzeStep_adds_under (acc : UsageAnalysis) (k : String) (m : NodeMetric)
    (hk : pyStartsWith k "instance_" = true)
    (hcpu : m.cpu_utilization < 20) (hmem : m.memory_utilization < 30) :
    ∃ e ∈ (analyzeStep acc (k, m)).underutilized_instances,
      e.instance_id = m.instance_id := by
  unfold analyzeStep
  dsimp only
  rw [if_pos hk]
  rw [addRightSizing_under, addSpotOpportunity_under, addOverutilized_under]
  unfold addUnderutilized
  rw [if_pos ⟨hcpu, hmem⟩]
  exact ⟨⟨m.instance_id, m.instance_type, m.cpu_utilization, m.memory_utilization,
          _calculate_right_sizing_savings m.instance_type m.cpu_utilization⟩,
         by simp [List.mem_append], rfl⟩

theorem analyzeStep_adds_spot (acc : UsageAnalysis) (k : String) (m : NodeMetric)
    (hk : pyStartsWith k "instance_" = true) (hspot : m.spot_instance = false)
    (hcpu : m.cpu_utilization < 50) (hmem : m.memory_utilization < 60) :
    ∃ e ∈ (analyzeStep acc (k, m)).spot_opportunities,
      e.instance_id = m.instance_id := by
  unfold analyzeStep
  dsimp only
  rw [if_pos hk]
  rw [addRightSizing_spot]
  unfold addSpotOpportunity
  rw [if_pos ⟨hspot, hcpu, hmem⟩]
  exact ⟨⟨m.instance_id, m.instance_type, _calculate_spot_savings m.instance_type⟩,
         by simp [List.mem_append], rfl⟩

theorem analyze_aux :
    ∀ (l : List (String × NodeMetric)) (acc : UsageAnalysis) (k : String) (m : NodeMetric),
      (k, m) ∈ l → pyStartsWith k "instance_" = true →
      m.cpu_utilization < 20 → m.memory_utilization < 30 →
      (∃ e ∈ (l.foldl analyzeStep acc).underutilized_instances,
          e.instance_id = m.instance_id) ∧
      (m.spot_instance = false →
        ∃ e ∈ (l.foldl analyzeStep acc).spot_opportunities,
            e.instance_id = m.instance_id) := by
  intro l
  induction l with
  | nil => intro acc k m hm; cases hm
  | cons p rest ih =>
    intro acc k m hm hk hcpu hmem
    rcases List.mem_cons.mp hm with hh | ht
    · subst hh
      simp only [List.foldl_cons]
      constructor
      · obtain ⟨e, he, hid⟩ := analyzeStep_adds_under acc k m hk hcpu hmem
        exact ⟨e, analyze_foldl_under_mono rest _ e he, hid⟩
      · intro hspot
        obtain ⟨e, he, hid⟩ := analyzeStep_adds_spot acc k m hk hspot
          (lt_trans hcpu (by norm_num)) (lt_trans hmem (by norm_num))
        exact ⟨e, analyze_foldl_spot_mono rest _ e he, hid⟩
    · simp only [List.foldl_cons]
      exact ih _ k m ht hk hcpu hmem

end CostAnalyzer

/-- C8: every instance entry of `node_metrics` (key prefixed `instance_`)
with cpu utilization below 20 and memory utilization below 30 appears in
the analyzer's `underutilized_instances` list; and this never excludes it
from `spot_opportunities` — when it is additionally not a spot instance it
appears there as well. -/
theorem c8_underutilized_membership :
    ∀ (node_metrics : List (String × NodeMetric)) (k : String) (m : NodeMetric),
      (k, m) ∈ node_metrics → pyStartsWith k "instance_" = true →
      m.cpu_utilization < 20 → m.memory_utilization < 30 →
      (∃ e ∈ (CostAnalyzer.analyze_usage_patterns node_metrics).underutilized_instances,
          e.instance_id = m.instance_id) ∧
      (m.spot_instance = false →
        ∃ e ∈ (CostAnalyzer.analyze_usage_patterns node_metrics).spot_opportunities,
            e.instance_id = m.instance_id) :=
  fun nm k m hm hk hcpu hmem => CostAnalyzer.analyze_aux nm _ k m hm hk hcpu hmem

/-- C8 witness: a concrete non-spot node at cpu 10 / memory 20 lands in
both the underutilized list and the spot-opportunities list. -/
theorem c8_underutilized_membership_witness :
    (∃ e ∈ (CostAnalyzer.analyze_usage_patterns
        [("instance_i-0008", c8Node)]).underutilized_instances,
        e.instance_id = c8Node.instance_id) ∧
    (∃ e ∈ (CostAnalyzer.analyze_usage_patterns
        [("instance_i-0008", c8Node)]).spot_opportunities,
        e.instance_id = c8Node.instance_id) :=
  ⟨(c8_underutilized_membership [("instance_i-0008", c8Node)] "instance_i-0008" c8Node
      (List.mem_singleton_self _) (by decide) (by norm_num [c8Node]) (by norm_num [c8Node])).1,
   (c8_underutilized_membership [("instance_i-0008", c8Node)] "instance_i-0008" c8Node
      (List.mem_singleton_self _) (by decide) (by norm_num [c8Node]) (by norm_num [c8Node])).2 rfl⟩

/-! ### Claim C9 -/

/-- C9: every pod-scaling recommendation is a `scale_pods` action with
confidence 0.8 (scale-down) or 0.9 (scale-up); a scale-down (confidence
0.8) is only emitted for a deployment with `replicas > 1`, `cpu_usage <
0.2` and `memory_usage < 0.3`, carries priority `medium`, risk `low`, and
`target_replicas = max 1 (replicas - 1)`, which is always at least 1
regardless of the input replica count. -/
theorem c9_scale_down_bounds :
    ∀ (m : MetricsSnapshot) (r : Recommendation),
      r ∈ RecommendationEngine._generate_pod_scaling_recommendations m →
      (r.action_type = "scale_pods" ∧
        (r.confidence_score = 0.8 ∨ r.confidence_score = 0.9)) ∧
      (r.confidence_score = 0.8 →
        r.priority = "medium" ∧ r.risk_level = "low" ∧
        ∃ p ∈ m.deployments,
          p.2.replicas > 1 ∧ p.2.cpu_usage < 0.2 ∧ p.2.memory_usage < 0.3 ∧
          r.target_replicas = some (max 1 (p.2.replicas - 1)) ∧
          (1 : ℤ) ≤ max 1 (p.2.replicas - 1)) := by
  intro m r hr
  unfold RecommendationEngine._generate_pod_scaling_recommendations at hr
  rw [List.mem_flatMap] at hr
  obtain ⟨nd, hnd, hin⟩ := hr
  dsimp only at hin
  split_ifs at hin with h1 h2
  · rcases List.mem_singleton.mp hin with rfl
    refine ⟨⟨rfl, Or.inl rfl⟩, fun _ => ⟨rfl, rfl, nd, hnd, h1.1, h1.2.1, h1.2.2, rfl,
      le_max_left 1 _⟩⟩
  · rcases List.mem_singleton.mp hin with rfl
    exact ⟨⟨rfl, Or.inr rfl⟩, fun habs => absurd habs (by norm_num)⟩
  · cases hin

/-- C9 witness: the deployment with 3 replicas at cpu 0.1 / memory 0.2
produces the scale-down recommendation to 2 replicas with the claimed
fields. -/
theorem c9_scale_down_bounds_witness :
    (c9Rec.action_type = "scale_pods" ∧
      (c9Rec.confidence_score = 0.8 ∨ c9Rec.confidence_score = 0.9)) ∧
    (c9Rec.confidence_score = 0.8 →
      c9Rec.priority = "medium" ∧ c9Rec.risk_level = "low" ∧
      ∃ p ∈ c9Snapshot.deployments,
        p.2.replicas > 1 ∧ p.2.cpu_usage < 0.2 ∧ p.2.memory_usage < 0.3 ∧
        c9Rec.target_replicas = some (max 1 (p.2.replicas - 1)) ∧
        (1 : ℤ) ≤ max 1 (p.2.replicas - 1)) :=
  c9_scale_down_bounds c9Snapshot c9Rec (by
    unfold RecommendationEngine._generate_pod_scaling_recommendations c9Snapshot
    simp only [List.flatMap_cons, List.flatMap_nil, List.append_nil]
    rw [if_pos (show (3 : ℤ) > 1 ∧ (0.1 : ℚ) < 0.2 ∧ (0.2 : ℚ) < 0.3 by norm_num)]
    rw [List.mem_singleton]
    have hm : max (1 : ℤ) (3 - 1) = 2 := by decide
    rw [hm]
    unfold c9Rec
    have hsv : RecommendationEngine._calculate_pod_scaling_savings 3 2 = 21.6 := by
      unfold RecommendationEngine._calculate_pod_scaling_savings
      norm_num
    rw [hsv]
    simp only [Recommendation.mk.injEq, and_true, true_and]
    decide)

/-! ### Claim C6 -/

namespace RecommendationEngine

theorem getD_map_rec (f : Recommendation → Recommendation) (l : List Recommendation) :
    ∀ (i : ℕ), i < l.length →
      (l.map f).getD i defaultRecommendation = f (l.getD i defaultRecommendation) := by
  induction l with
  | nil => intro i hi; cases hi
  | cons a as ih =>
    intro i hi
    cases i with
    | zero => rfl
    | succ n => exact ih n (Nat.lt_of_succ_lt_succ hi)

end RecommendationEngine

/-- C6: the AI-insight merge never adds or removes recommendations (the
output always has the input's length, even on the error paths), and when
the insight fields are scalars: each recommendation's confidence is
multiplied by 1.1 and capped at 1.0 exactly when `recommendation_confidence`
exceeds 0.8 (unchanged otherwise), and each `estimated_savings` is
multiplied by `savings_multiplier`, which defaults to 1.0 when absent. -/
theorem c6_ai_merge_scales_uniformly :
    (∀ (recs : List Recommendation) (insights confidence : JVal),
       (RecommendationEngine._apply_ai_insights recs insights confidence).length =
         recs.length) ∧
    (∀ (recs : List Recommendation) (fields : JDict) (confidence : JVal) (i : ℕ),
       numericJ (dictGetD fields "recommendation_confidence" (JVal.num 0)) = true →
       numericJ (dictGetD fields "savings_multiplier" (JVal.num 1.0)) = true →
       i < recs.length →
       ((RecommendationEngine._apply_ai_insights recs (JVal.obj fields) confidence).getD i
           defaultRecommendation).confidence_score =
         (if numValue (dictGetD fields "recommendation_confidence" (JVal.num 0)) > 0.8
          then min 1.0 ((recs.getD i defaultRecommendation).confidence_score * 1.1)
          else (recs.getD i defaultRecommendation).confidence_score) ∧
       ((RecommendationEngine._apply_ai_insights recs (JVal.obj fields) confidence).getD i
           defaultRecommendation).estimated_savings =
         (recs.getD i defaultRecommendation).estimated_savings *
           numValue (dictGetD fields "savings_multiplier" (JVal.num 1.0))) := by
  constructor
  · intro recs insights confidence
    unfold RecommendationEngine._apply_ai_insights
    cases insights with
    | obj ins =>
      dsimp only
      by_cases h1 : numericJ (dictGetD ins "recommendation_confidence" (JVal.num 0)) = false
      · rw [if_pos h1]
      · rw [if_neg h1]
        by_cases h2 : numericJ (dictGetD ins "savings_multiplier" (JVal.num 1.0)) = false
        · rw [if_pos h2]
          cases recs <;> rfl
        · rw [if_neg h2]
          simp [List.length_map]
    | null => rfl
    | jbool b => rfl
    | num q => rfl
    | str s => rfl
    | arr xs => rfl
  · intro recs fields confidence i hcv hmv hi
    unfold RecommendationEngine._apply_ai_insights
    dsimp only
    rw [if_neg (by simp [hcv]), if_neg (by simp [hmv])]
    rw [RecommendationEngine.getD_map_rec _ recs i hi]
    cases hreason : dictGet? fields "reasoning" with
    | none =>
      dsimp only
      constructor
      · by_cases hb : numValue (dictGetD fields "recommendation_confidence" (JVal.num 0)) > 0.8
        · rw [if_pos hb, if_pos hb]
        · rw [if_neg hb, if_neg hb]
      · by_cases hb : numValue (dictGetD fields "recommendation_confidence" (JVal.num 0)) > 0.8
        · rw [if_pos hb]
        · rw [if_neg hb]
    | some v =>
      dsimp only
      by_cases ht : truthy v = true
      · rw [if_pos ht]
        dsimp only
        constructor
        · by_cases hb : numValue (dictGetD fields "recommendation_confidence" (JVal.num 0)) > 0.8
          · rw [if_pos hb, if_pos hb]
          · rw [if_neg hb, if_neg hb]
        · by_cases hb : numValue (dictGetD fields "recommendation_confidence" (JVal.num 0)) > 0.8
          · rw [if_pos hb]
          · rw [if_neg hb]
      · rw [if_neg ht]
        dsimp only
        constructor
        · by_cases hb : numValue (dictGetD fields "recommendation_confidence" (JVal.num 0)) > 0.8
          · rw [if_pos hb, if_pos hb]
          · rw [if_neg hb, if_neg hb]
        · by_cases hb : numValue (dictGetD fields "recommendation_confidence" (JVal.num 0)) > 0.8
          · rw [if_pos hb]
          · rw [if_neg hb]

/-- C6 witness: with `recommendation_confidence = 0.9` and
`savings_multiplier = 2`, the single recommendation's confidence is boosted
and capped and its savings are doubled. -/
theorem c6_ai_merge_scales_uniformly_witness :
    ((RecommendationEngine._apply_ai_insights c6Recs (JVal.obj c6Fields) (JVal.num 0)).getD 0
        defaultRecommendation).confidence_score =
      (if numValue (dictGetD c6Fields "recommendation_confidence" (JVal.num 0)) > 0.8
       then min 1.0 ((c6Recs.getD 0 defaultRecommendation).confidence_score * 1.1)
       else (c6Recs.getD 0 defaultRecommendation).confidence_score) ∧
    ((RecommendationEngine._apply_ai_insights c6Recs (JVal.obj c6Fields) (JVal.num 0)).getD 0
        defaultRecommendation).estimated_savings =
      (c6Recs.getD 0 defaultRecommendation).estimated_savings *
        numValue (dictGetD c6Fields "savings_multiplier" (JVal.num 1.0)) :=
  c6_ai_merge_scales_uniformly.2 c6Recs c6Fields (JVal.num 0) 0 (by rfl) (by rfl)
    (by decide)
